import Mathlib

/-
Verification of the SnapPlan geometric measurement and symbol detection
engine (backend/app/services), as a shallow embedding in Lean 4.

Conventions of the embedding:
- Python floats are modelled by exact rationals (ℚ) wherever the source
  only uses field operations and comparisons; quantities produced by
  `math.sqrt` / `math.atan2` live in ℝ.
- Python functions that can raise are modelled as `Except String α`,
  with the error string taken from the source's exception message.
- Identifier-irrelevant audit fields of the source dataclasses
  (uuid ids, free-text notes, timestamps) are omitted; every field a
  claim depends on is present.
-/

namespace SnapPlan

/-! ## Polygon geometry (measurement_engine.py, vector_measurement.py) -/

/-- One vertex in pixel space.  Python tuples `(x, y)` of floats. -/
abbrev Pt := ℚ × ℚ

/-- `point_in_polygon(x, y, polygon_points)` from
`vector_measurement.py`: ray-casting / even-odd rule.  The loop walks
`i` over `range(n)` with `j` the cyclically previous index (`j` starts
at `n - 1`); `inside` is toggled whenever the edge `(pts[i], pts[j])`
straddles the horizontal line through `y` and the crossing lies to the
right of the query point.  Returns `False` for fewer than 3 vertices. -/
def point_in_polygon (x y : ℚ) (polygon_points : List Pt) : Bool :=
  let n := polygon_points.length
  if n < 3 then false
  else
    (List.range n).foldl
      (fun inside i =>
        let pi := polygon_points.getD i (0, 0)
        let pj := polygon_points.getD ((i + n - 1) % n) (0, 0)
        if ((pi.2 > y) ≠ (pj.2 > y))
            ∧ x < (pj.1 - pi.1) * (y - pi.2) / (pj.2 - pi.2) + pi.1
        then !inside else inside)
      false

/-- `Sector` from `measurement_engine.py`: a named polygon region.
Audit fields (`sector_id`, `file_id`, `name`, timestamps, caches) are
kept only where a claim reads them. -/
structure Sector where
  sector_id : String
  file_id : String
  page_number : ℤ
  name : String
  polygon_points : List Pt

/-- `Sector.contains_point(x, y)` from `measurement_engine.py`.  The
body is an independently written copy of the same ray-casting loop as
`point_in_polygon` (claim C9 is that the two agree). -/
def Sector.contains_point (s : Sector) (x y : ℚ) : Bool :=
  let n := s.polygon_points.length
  if n < 3 then false
  else
    (List.range n).foldl
      (fun inside i =>
        let pi := s.polygon_points.getD i (0, 0)
        let pj := s.polygon_points.getD ((i + n - 1) % n) (0, 0)
        if ((pi.2 > y) ≠ (pj.2 > y))
            ∧ x < (pj.1 - pi.1) * (y - pi.2) / (pj.2 - pi.2) + pi.1
        then !inside else inside)
      false

/-- Per-iteration cross term of the shoelace loop:
`area += xi * yj; area -= xj * yi` for the vertex pair `(pts[i], pts[j])`
with `j = (i + 1) % n`. -/
def shoelaceTerm (polygon_points : List Pt) (i : ℕ) : ℚ :=
  let n := polygon_points.length
  let p := polygon_points.getD i (0, 0)
  let q := polygon_points.getD ((i + 1) % n) (0, 0)
  p.1 * q.2 - q.1 * p.2

/-- The signed accumulator `area` of `shoelace_area_pixels` after the
full `for i in range(n)` loop. -/
def shoelaceSum (polygon_points : List Pt) : ℚ :=
  ∑ i in Finset.range polygon_points.length, shoelaceTerm polygon_points i

/-- `shoelace_area_pixels(polygon_points)` from `measurement_engine.py`:
raises `ValueError` for fewer than 3 points, else `abs(area) / 2.0`. -/
def shoelace_area_pixels (polygon_points : List Pt) : Except String ℚ :=
  let n := polygon_points.length
  if n < 3 then .error "Polygon must have at least 3 points"
  else .ok (|shoelaceSum polygon_points| / 2)

/-- Euclidean distance between two vertices, `math.sqrt((xj - xi) ** 2
+ (yj - yi) ** 2)`. -/
noncomputable def euclidDist (p q : Pt) : ℝ :=
  Real.sqrt (((q.1 - p.1 : ℚ) : ℝ) ^ 2 + ((q.2 - p.2 : ℚ) : ℝ) ^ 2)

/-- The accumulator `perimeter` of `shoelace_perimeter_pixels` after the
full `for i in range(n)` loop (each vertex paired with its cyclic
successor `j = (i + 1) % n`). -/
noncomputable def perimeterSum (polygon_points : List Pt) : ℝ :=
  ∑ i in Finset.range polygon_points.length,
    euclidDist (polygon_points.getD i (0, 0))
      (polygon_points.getD ((i + 1) % polygon_points.length) (0, 0))

/-- `shoelace_perimeter_pixels(polygon_points)` from
`measurement_engine.py`: raises `ValueError` for fewer than 2 points,
else sums the wrapped consecutive Euclidean distances. -/
noncomputable def shoelace_perimeter_pixels (polygon_points : List Pt) :
    Except String ℝ :=
  if polygon_points.length < 2 then
    .error "Polygon must have at least 2 points"
  else .ok (perimeterSum polygon_points)

/-! ### Shoelace helper lemmas -/

/-- The cross term `xi * yj - xj * yi` of one shoelace iteration. -/
def crossQ (p q : Pt) : ℚ := p.1 * q.2 - q.1 * p.2

lemma crossQ_antisymm (p q : Pt) : crossQ p q = -crossQ q p := by
  simp only [crossQ]; ring

lemma getD_reverse (l : List Pt) {i : ℕ} (h : i < l.length) :
    l.reverse.getD i (0, 0) = l.getD (l.length - 1 - i) (0, 0) := by
  rw [List.getD_eq_getElem _ _ (by simpa using h),
    List.getD_eq_getElem _ _ (by omega), List.getElem_reverse]

lemma getD_rotate (l : List Pt) (k : ℕ) {i : ℕ} (h : i < l.length) :
    (l.rotate k).getD i (0, 0) = l.getD ((i + k) % l.length) (0, 0) := by
  rw [List.getD_eq_getElem _ _ (by simpa using h),
    List.getD_eq_getElem _ _ (Nat.mod_lt _ (by omega)), List.getElem_rotate]

lemma shoelaceTerm_lt (pts : List Pt) {m i : ℕ} (hm : pts.length = m + 1)
    (hi : i < m) :
    shoelaceTerm pts i = crossQ (pts.getD i (0, 0)) (pts.getD (i + 1) (0, 0)) := by
  simp only [shoelaceTerm, crossQ, hm, Nat.mod_eq_of_lt (by omega : i + 1 < m + 1)]

lemma shoelaceTerm_last (pts : List Pt) {m : ℕ} (hm : pts.length = m + 1) :
    shoelaceTerm pts m = crossQ (pts.getD m (0, 0)) (pts.getD 0 (0, 0)) := by
  simp only [shoelaceTerm, crossQ, hm, Nat.mod_self]

lemma shoelaceSum_split (pts : List Pt) {m : ℕ} (hm : pts.length = m + 1) :
    shoelaceSum pts =
      (∑ i in Finset.range m,
        crossQ (pts.getD i (0, 0)) (pts.getD (i + 1) (0, 0)))
        + crossQ (pts.getD m (0, 0)) (pts.getD 0 (0, 0)) := by
  unfold shoelaceSum
  rw [hm, Finset.sum_range_succ, shoelaceTerm_last pts hm]
  congr 1
  exact Finset.sum_congr rfl fun i hi =>
    shoelaceTerm_lt pts hm (Finset.mem_range.mp hi)

/-- Reversing the vertex list negates the signed shoelace accumulator. -/
lemma shoelaceSum_reverse (pts : List Pt) :
    shoelaceSum pts.reverse = -shoelaceSum pts := by
  rcases hn : pts.length with _ | m
  · have h0 : pts = [] := List.length_eq_zero.mp hn
    subst h0
    simp [shoelaceSum]
  · have hrev : pts.reverse.length = m + 1 := by simpa using hn
    rw [shoelaceSum_split pts.reverse hrev, shoelaceSum_split pts hn]
    have hrg : ∀ i, i < m + 1 →
        pts.reverse.getD i (0, 0) = pts.getD (m - i) (0, 0) := by
      intro i hi
      rw [getD_reverse pts (by omega)]
      have hidx : pts.length - 1 - i = m - i := by omega
      rw [hidx]
    have hsum : (∑ i in Finset.range m,
          crossQ (pts.reverse.getD i (0, 0)) (pts.reverse.getD (i + 1) (0, 0)))
        = ∑ i in Finset.range m,
          crossQ (pts.getD (i + 1) (0, 0)) (pts.getD i (0, 0)) := by
      rw [← Finset.sum_range_reflect
        (fun j => crossQ (pts.getD (j + 1) (0, 0)) (pts.getD j (0, 0))) m]
      refine Finset.sum_congr rfl fun i hi => ?_
      have hi' := Finset.mem_range.mp hi
      rw [hrg i (by omega), hrg (i + 1) (by omega)]
      have h1 : m - 1 - i + 1 = m - i := by omega
      have h2 : m - (i + 1) = m - 1 - i := by omega
      rw [h1, h2]
    rw [hsum, hrg m (by omega), hrg 0 (by omega)]
    have hm0 : m - m = 0 := by omega
    have hmm : m - 0 = m := by omega
    rw [hm0, hmm]
    rw [crossQ_antisymm (pts.getD 0 (0, 0)) (pts.getD m (0, 0))]
    have hneg : ∀ i ∈ Finset.range m,
        crossQ (pts.getD (i + 1) (0, 0)) (pts.getD i (0, 0))
          = -crossQ (pts.getD i (0, 0)) (pts.getD (i + 1) (0, 0)) :=
      fun i _ => crossQ_antisymm _ _
    rw [Finset.sum_congr rfl hneg, Finset.sum_neg_distrib]
    ring

/-- Rotating the vertex list by one position keeps the signed shoelace
accumulator. -/
lemma shoelaceSum_rotate_one (pts : List Pt) :
    shoelaceSum (pts.rotate 1) = shoelaceSum pts := by
  rcases hn : pts.length with _ | m
  · have h0 : pts = [] := List.length_eq_zero.mp hn
    subst h0
    simp [shoelaceSum]
  · have hterm : ∀ i, i < m + 1 →
        shoelaceTerm (pts.rotate 1) i = shoelaceTerm pts ((i + 1) % (m + 1)) := by
      intro i hi
      have h1 : shoelaceTerm (pts.rotate 1) i
          = shoelaceTerm pts ((i + 1) % pts.length) := by
        simp only [shoelaceTerm, List.length_rotate]
        rw [getD_rotate pts 1 (by omega),
          getD_rotate pts 1 (Nat.mod_lt _ (by omega)), Nat.mod_add_mod]
      rw [h1, hn]
    unfold shoelaceSum
    rw [List.length_rotate, hn]
    rw [Finset.sum_congr rfl (fun i hi => hterm i (Finset.mem_range.mp hi))]
    rw [Finset.sum_range_succ, Nat.mod_self, Finset.sum_range_succ' (shoelaceTerm pts) m]
    congr 1
    refine Finset.sum_congr rfl fun i hi => ?_
    have hi' := Finset.mem_range.mp hi
    rw [Nat.mod_eq_of_lt (by omega : i + 1 < m + 1)]

/-- Rotating by any amount keeps the signed shoelace accumulator. -/
lemma shoelaceSum_rotate (pts : List Pt) (k : ℕ) :
    shoelaceSum (pts.rotate k) = shoelaceSum pts := by
  induction k with
  | zero => simp
  | succ k ih =>
    have hsplit : pts.rotate (k + 1) = (pts.rotate k).rotate 1 := by
      rw [List.rotate_rotate]
    rw [hsplit, shoelaceSum_rotate_one, ih]

lemma euclidDist_symm (p q : Pt) : euclidDist q p = euclidDist p q := by
  unfold euclidDist
  congr 1
  push_cast
  ring

/-- The unit square of the spec's testable properties. -/
def unitSquare : List Pt := [(0, 0), (1, 0), (1, 1), (0, 1)]

/-- Claim C3: for every vertex list with at least 3 points,
`shoelace_area_pixels` is unchanged by reversing the vertex list and by
any cyclic rotation; for the unit square the area is 1.0 and
`shoelace_perimeter_pixels` returns 4.0. -/
theorem c3_shoelace_invariance :
    (∀ pts : List Pt, 3 ≤ pts.length →
      shoelace_area_pixels pts.reverse = shoelace_area_pixels pts
        ∧ ∀ k : ℕ, shoelace_area_pixels (pts.rotate k) = shoelace_area_pixels pts)
    ∧ shoelace_area_pixels unitSquare = .ok 1
    ∧ shoelace_perimeter_pixels unitSquare = .ok 4 := by
  refine ⟨fun pts h3 => ⟨?_, fun k => ?_⟩, ?_, ?_⟩
  · simp only [shoelace_area_pixels, List.length_reverse, shoelaceSum_reverse,
      abs_neg]
  · simp only [shoelace_area_pixels, List.length_rotate, shoelaceSum_rotate]
  · show shoelace_area_pixels [(0, 0), (1, 0), (1, 1), (0, 1)] = _
    unfold shoelace_area_pixels shoelaceSum shoelaceTerm
    norm_num [Finset.sum_range_succ, List.getD]
  · show shoelace_perimeter_pixels [(0, 0), (1, 0), (1, 1), (0, 1)] = _
    unfold shoelace_perimeter_pixels perimeterSum
    norm_num [Finset.sum_range_succ, euclidDist, List.getD]

/-- Witness for C3 at the unit square. -/
theorem c3_shoelace_invariance_witness :
    shoelace_area_pixels unitSquare.reverse = shoelace_area_pixels unitSquare
      ∧ shoelace_area_pixels (unitSquare.rotate 2) = shoelace_area_pixels unitSquare :=
  ⟨(c3_shoelace_invariance.1 unitSquare (by decide)).1,
    (c3_shoelace_invariance.1 unitSquare (by decide)).2 2⟩

/-- Claim C10: for exactly two vertices, `shoelace_perimeter_pixels`
does not raise and returns twice the Euclidean distance between them,
the wrap-around edge traversing the segment a second time. -/
theorem c10_perimeter_two_points (p q : Pt) :
    shoelace_perimeter_pixels [p, q] = .ok (2 * euclidDist p q) := by
  unfold shoelace_perimeter_pixels perimeterSum
  norm_num [Finset.sum_range_succ, List.getD, euclidDist_symm q p, two_mul]

/-- Claim C9: `Sector.contains_point` and the free `point_in_polygon`
agree on every point and polygon, including returning `false` for fewer
than 3 vertices. -/
theorem c9_point_in_polygon_equiv :
    (∀ (s : Sector) (x y : ℚ),
      s.contains_point x y = point_in_polygon x y s.polygon_points)
    ∧ ∀ (x y : ℚ) (pts : List Pt), pts.length < 3 →
      point_in_polygon x y pts = false := by
  constructor
  · intro s x y
    rfl
  · intro x y pts h
    simp [point_in_polygon, h]

/-- Witness for C9 at a concrete triangle and a degenerate 2-point list. -/
theorem c9_point_in_polygon_equiv_witness :
    Sector.contains_point ⟨"s1", "f1", 1, "room", [(0, 0), (4, 0), (0, 4)]⟩ 1 1
        = point_in_polygon 1 1 [(0, 0), (4, 0), (0, 4)]
      ∧ point_in_polygon 1 1 [(0, 0), (4, 0)] = false :=
  ⟨c9_point_in_polygon_equiv.1 ⟨"s1", "f1", 1, "room", [(0, 0), (4, 0), (0, 4)]⟩ 1 1,
    c9_point_in_polygon_equiv.2 1 1 [(0, 0), (4, 0)] (by decide)⟩

/-! ## Scale calibration (scale_calibration.py) -/

/-- `INCHES_PER_METER = 39.3701`. -/
def INCHES_PER_METER : ℚ := 393701 / 10000

/-- `COMMON_SCALES`: the table of common architectural scales, in
source order (Python dict literals preserve insertion order). -/
def COMMON_SCALES : List (String × ℚ) :=
  [("1:1", 1), ("1:2", 2), ("1:5", 5), ("1:10", 10), ("1:20", 20),
    ("1:25", 25), ("1:50", 50), ("1:100", 100), ("1:200", 200),
    ("1:250", 250), ("1:500", 500), ("1:1000", 1000)]

/-- `ScaleContext` from `scale_calibration.py`.  `id`, `source_bbox`,
page dimensions, `is_active` and `notes` are omitted: no claim reads
them. -/
structure ScaleContext where
  file_id : Option String
  scale_string : Option String
  scale_factor : Option ℚ
  pixels_per_meter : Option ℚ
  detection_method : String
  confidence : ℚ
  source_page : ℤ
  render_dpi : ℤ
  user_reference_px : Option ℚ
  user_reference_m : Option ℚ

/-- `ScaleContext.has_scale`: `pixels_per_meter is not None and
pixels_per_meter > 0`. -/
def ScaleContext.has_scale (sc : ScaleContext) : Bool :=
  sc.pixels_per_meter.isSome && decide (sc.pixels_per_meter.getD 0 > 0)

/-- `compute_pixels_per_meter(scale_factor, page_width_points,
page_height_points, dpi)`: raises for non-positive `scale_factor`, else
`(1 / scale_factor) * INCHES_PER_METER * dpi`.  The two page-dimension
arguments are unused in the source body and are modelled likewise. -/
def compute_pixels_per_meter (scale_factor : ℚ)
    (_page_width_points _page_height_points : ℚ) (dpi : ℤ) : Except String ℚ :=
  if scale_factor ≤ 0 then .error "scale_factor must be positive"
  else .ok ((1 / scale_factor) * INCHES_PER_METER * (dpi : ℚ))

/-- `infer_scale_string(pixels_per_meter, dpi)`: first common scale
whose expected pixels-per-meter is within 5% of the given value.  The
error branch of `compute_pixels_per_meter` is unreachable here because
every table entry is positive. -/
def infer_scale_string (pixels_per_meter : ℚ) (dpi : ℤ) : Option String :=
  COMMON_SCALES.findSome? fun sf =>
    match compute_pixels_per_meter sf.2 0 0 dpi with
    | .ok expected =>
        if |pixels_per_meter - expected| / expected < 5 / 100 then some sf.1
        else none
    | .error _ => none

/-- `compute_scale_from_points(pixel_distance, real_distance_meters,
page_number, page_info=None, file_id)` from `scale_calibration.py`, the
implementation behind user reference calibration.  `page_info` is
`None` on this path, so `dpi = 150`. -/
def compute_scale_from_points (pixel_distance real_distance_meters : ℚ)
    (page_number : ℤ) (file_id : Option String) : Except String ScaleContext :=
  if pixel_distance ≤ 0 then .error "pixel_distance must be positive"
  else if real_distance_meters ≤ 0 then
    .error "real_distance_meters must be positive"
  else
    let pixels_per_meter := pixel_distance / real_distance_meters
    let dpi : ℤ := 150
    let scale_string := infer_scale_string pixels_per_meter dpi
    let scale_factor := scale_string.bind fun s => COMMON_SCALES.lookup s
    .ok
      { file_id := file_id
        scale_string := scale_string
        scale_factor := scale_factor
        pixels_per_meter := some pixels_per_meter
        detection_method := "user_calibration"
        confidence := 1
        source_page := page_number
        render_dpi := dpi
        user_reference_px := some pixel_distance
        user_reference_m := some real_distance_meters }

/-- Claim C2: `compute_scale_from_points` raises exactly when an input
is non-positive; for positive inputs it returns a `ScaleContext` with
`pixels_per_meter = pixel_distance / real_distance_meters`, detection
method `user_calibration` and confidence 1.0; `(90, 0.9)` gives
`pixels_per_meter = 100` exactly. -/
theorem c2_compute_scale_from_points :
    (∀ pd rd : ℚ, (∃ e, compute_scale_from_points pd rd 1 none = .error e)
      ↔ pd ≤ 0 ∨ rd ≤ 0)
    ∧ (∀ pd rd : ℚ, 0 < pd → 0 < rd →
        ∃ c, compute_scale_from_points pd rd 1 none = .ok c
          ∧ c.pixels_per_meter = some (pd / rd)
          ∧ c.detection_method = "user_calibration"
          ∧ c.confidence = 1)
    ∧ (∃ c, compute_scale_from_points 90 (9 / 10) 1 none = .ok c
          ∧ c.pixels_per_meter = some 100) := by
  have hok : ∀ pd rd : ℚ, 0 < pd → 0 < rd →
      ∃ c, compute_scale_from_points pd rd 1 none = .ok c
        ∧ c.pixels_per_meter = some (pd / rd)
        ∧ c.detection_method = "user_calibration"
        ∧ c.confidence = 1 := by
    intro pd rd h1 h2
    unfold compute_scale_from_points
    rw [if_neg (not_le.mpr h1), if_neg (not_le.mpr h2)]
    exact ⟨_, rfl, rfl, rfl, rfl⟩
  refine ⟨?_, hok, ?_⟩
  · intro pd rd
    constructor
    · rintro ⟨e, he⟩
      by_contra hcon
      push_neg at hcon
      obtain ⟨c, hc, -, -, -⟩ := hok pd rd hcon.1 hcon.2
      rw [hc] at he
      exact Except.noConfusion he
    · intro h
      unfold compute_scale_from_points
      rcases h with h | h
      · rw [if_pos h]
        exact ⟨_, rfl⟩
      · by_cases h1 : pd ≤ 0
        · rw [if_pos h1]
          exact ⟨_, rfl⟩
        · rw [if_neg h1, if_pos h]
          exact ⟨_, rfl⟩
  · obtain ⟨c, hc, hppm, -, -⟩ := hok 90 (9 / 10) (by norm_num) (by norm_num)
    refine ⟨c, hc, ?_⟩
    rw [hppm]
    norm_num

/-- Witness for C2 at pixel distance 90 and real distance 0.9 m. -/
theorem c2_compute_scale_from_points_witness :
    ∃ c, compute_scale_from_points 90 (9 / 10) 1 none = .ok c
      ∧ c.pixels_per_meter = some (90 / (9 / 10))
      ∧ c.detection_method = "user_calibration"
      ∧ c.confidence = 1 :=
  c2_compute_scale_from_points.2.1 90 (9 / 10) (by norm_num) (by norm_num)

/-! ## Vector segments and sector measurements (vector_measurement.py) -/

/-- `LineSegment` from `vector_measurement.py` (layer, stroke width,
color, metadata omitted: no claim reads them). -/
structure LineSegment where
  x1 : ℚ
  y1 : ℚ
  x2 : ℚ
  y2 : ℚ
  page_number : ℤ

/-- `LineSegment.length_px`: `math.sqrt((x2 - x1) ** 2 + (y2 - y1) ** 2)`. -/
noncomputable def LineSegment.length_px (seg : LineSegment) : ℝ :=
  Real.sqrt (((seg.x2 - seg.x1 : ℚ) : ℝ) ^ 2 + ((seg.y2 - seg.y1 : ℚ) : ℝ) ^ 2)

/-- `WallSegment`: a `LineSegment` with classification metadata. -/
structure WallSegment where
  segment_id : String
  segment : LineSegment
  kind : String
  confidence : ℚ

/-- `WallSegment.page_number` delegates to the wrapped segment. -/
def WallSegment.page_number (w : WallSegment) : ℤ := w.segment.page_number

/-- `WallSegment.length_px` delegates to the wrapped segment. -/
noncomputable def WallSegment.length_px (w : WallSegment) : ℝ := w.segment.length_px

/-- `segment_in_polygon(segment, polygon_points, require_both_endpoints)`:
point-in-polygon on both endpoints, AND when both are required, OR
otherwise. -/
def segment_in_polygon (segment : LineSegment) (polygon_points : List Pt)
    (require_both_endpoints : Bool) : Bool :=
  let p1_inside := point_in_polygon segment.x1 segment.y1 polygon_points
  let p2_inside := point_in_polygon segment.x2 segment.y2 polygon_points
  if require_both_endpoints then p1_inside && p2_inside
  else p1_inside || p2_inside

/-- `MeasurementResult` from `measurement_engine.py` (audit fields
beyond these omitted: ids, assumptions, source strings, timestamps). -/
structure MeasurementResult where
  measurement_type : String
  value : ℝ
  unit : String
  page_number : ℤ
  confidence : ℚ

/-- Python's `round(x, 4)`: round to 4 decimal places.  CPython rounds
ties to even; no claim evaluates `round` at a tie, so Mathlib's `round`
is interchangeable there. -/
noncomputable def round4 (x : ℝ) : ℝ := ((round (x * 10000) : ℤ) : ℝ) / 10000

lemma round4_eq (x : ℝ) (n : ℤ) (h : x * 10000 = (n : ℝ)) :
    round4 x = (n : ℝ) / 10000 := by
  unfold round4
  rw [h, round_intCast]

/-- The accumulator `total_length_px` of
`compute_wall_length_in_sector_m`: the loop skips segments on another
page, then adds `length_px` of those passing `segment_in_polygon`. -/
noncomputable def totalWallLengthPx (wall_segments : List WallSegment)
    (sector : Sector) (require_both_endpoints : Bool) : ℝ :=
  ((wall_segments.filter fun w =>
      decide (w.page_number = sector.page_number)
        && segment_in_polygon w.segment sector.polygon_points
            require_both_endpoints).map
    WallSegment.length_px).sum

/-- `compute_wall_length_in_sector_m` from `vector_measurement.py`:
raises without a valid scale, else converts the summed pixel length via
`pixels_per_meter` and rounds the value to 4 decimals. -/
noncomputable def compute_wall_length_in_sector_m
    (wall_segments : List WallSegment) (sector : Sector)
    (scale_context : ScaleContext) (require_both_endpoints : Bool) :
    Except String MeasurementResult :=
  if !scale_context.has_scale then
    .error "ScaleContext must have valid pixels_per_meter"
  else
    let pixels_per_meter := scale_context.pixels_per_meter.getD 0
    let total_length_px :=
      totalWallLengthPx wall_segments sector require_both_endpoints
    let total_length_m := total_length_px / (pixels_per_meter : ℝ)
    .ok
      { measurement_type := "sector_wall_length"
        value := round4 total_length_m
        unit := "m"
        page_number := sector.page_number
        confidence := 1 }

/-- `compute_drywall_area_in_sector_m2`: wall length times wall height,
raising for non-positive height, propagating the wall-length failure. -/
noncomputable def compute_drywall_area_in_sector_m2
    (wall_segments : List WallSegment) (sector : Sector)
    (scale_context : ScaleContext) (wall_height_m : ℚ)
    (require_both_endpoints : Bool) : Except String MeasurementResult :=
  if wall_height_m ≤ 0 then .error "wall_height_m must be positive"
  else
    match compute_wall_length_in_sector_m wall_segments sector scale_context
        require_both_endpoints with
    | .error e => .error e
    | .ok wall_length_result =>
      let drywall_area_m2 := wall_length_result.value * (wall_height_m : ℝ)
      .ok
        { measurement_type := "sector_drywall_area"
          value := round4 drywall_area_m2
          unit := "m2"
          page_number := sector.page_number
          confidence := 1 }

/-- The square sector of the spec's end-to-end scenario. -/
def squareSector : Sector :=
  ⟨"sec1", "file1", 1, "Square", [(0, 0), (100, 0), (100, 100), (0, 100)]⟩

/-- The single wall segment `(10,50)-(90,50)` of the scenario. -/
def midWall : WallSegment := ⟨"w1", ⟨10, 50, 90, 50, 1⟩, "wall", 1⟩

/-- A user-calibrated scale with `pixels_per_meter = 10`. -/
def scale10 : ScaleContext :=
  { file_id := none
    scale_string := none
    scale_factor := none
    pixels_per_meter := some 10
    detection_method := "user_calibration"
    confidence := 1
    source_page := 1
    render_dpi := 150
    user_reference_px := none
    user_reference_m := none }

/-- Claim C1: `compute_wall_length_in_sector_m` sums `length_px` only
over same-page segments passing `segment_in_polygon` and divides by
`pixels_per_meter` (the stored value rounds to 4 decimals); an
off-page segment contributes zero, a fully-inside one its full length;
the end-to-end square scenario yields 8.0 m wall length and 20.8 m²
drywall area at height 2.6 m. -/
theorem c1_wall_length_in_sector :
    (∀ (segs : List WallSegment) (s : Sector) (sc : ScaleContext) (rb : Bool)
        (p : ℚ), sc.pixels_per_meter = some p → 0 < p →
        ∃ r, compute_wall_length_in_sector_m segs s sc rb = .ok r
          ∧ r.value = round4 (totalWallLengthPx segs s rb / (p : ℝ)))
    ∧ (∀ (w : WallSegment) (rest : List WallSegment) (s : Sector) (rb : Bool),
        w.page_number ≠ s.page_number →
        totalWallLengthPx (w :: rest) s rb = totalWallLengthPx rest s rb)
    ∧ (∀ (w : WallSegment) (rest : List WallSegment) (s : Sector) (rb : Bool),
        w.page_number = s.page_number →
        segment_in_polygon w.segment s.polygon_points rb = true →
        totalWallLengthPx (w :: rest) s rb
          = w.length_px + totalWallLengthPx rest s rb)
    ∧ (∃ r, compute_wall_length_in_sector_m [midWall] squareSector scale10 true
          = .ok r ∧ r.value = 8)
    ∧ (∃ r, compute_drywall_area_in_sector_m2 [midWall] squareSector scale10
          (26 / 10) true = .ok r ∧ r.value = 104 / 5) := by
  have hgen : ∀ (segs : List WallSegment) (s : Sector) (sc : ScaleContext)
      (rb : Bool) (p : ℚ), sc.pixels_per_meter = some p → 0 < p →
      ∃ r, compute_wall_length_in_sector_m segs s sc rb = .ok r
        ∧ r.value = round4 (totalWallLengthPx segs s rb / (p : ℝ)) := by
    intro segs s sc rb p hp hpos
    have hhs : sc.has_scale = true := by
      simp [ScaleContext.has_scale, hp, hpos]
    unfold compute_wall_length_in_sector_m
    simp only [hhs, Bool.not_true, Bool.false_eq_true, if_false]
    refine ⟨_, rfl, ?_⟩
    rw [hp, Option.getD_some]
  have hlen : midWall.length_px = 80 := by
    unfold midWall WallSegment.length_px LineSegment.length_px
    norm_num
    rw [show (6400 : ℝ) = 80 ^ 2 by norm_num]
    exact Real.sqrt_sq (by norm_num)
  have hpred : (decide (midWall.page_number = squareSector.page_number)
      && segment_in_polygon midWall.segment squareSector.polygon_points true)
        = true := by
    norm_num [midWall, squareSector, WallSegment.page_number,
      segment_in_polygon, point_in_polygon, List.range_succ]
  have htot : totalWallLengthPx [midWall] squareSector true = 80 := by
    unfold totalWallLengthPx
    rw [List.filter_cons]
    simp only [hpred, if_true, List.filter_nil, List.map_cons, List.map_nil,
      List.sum_cons, List.sum_nil, hlen]
    norm_num
  have hwall : compute_wall_length_in_sector_m [midWall] squareSector scale10
      true = .ok ⟨"sector_wall_length", 8, "m", 1, 1⟩ := by
    unfold compute_wall_length_in_sector_m
    rw [if_neg (by decide)]
    show (Except.ok ⟨"sector_wall_length",
        round4 (totalWallLengthPx [midWall] squareSector true / ((10 : ℚ) : ℝ)),
        "m", 1, 1⟩ : Except String MeasurementResult) = _
    rw [htot, show (80 : ℝ) / ((10 : ℚ) : ℝ) = 8 by norm_num]
    rw [round4_eq 8 80000 (by norm_num),
      show (((80000 : ℤ) : ℝ)) / 10000 = 8 by norm_num]
  have hdry : compute_drywall_area_in_sector_m2 [midWall] squareSector scale10
      (26 / 10) true = .ok ⟨"sector_drywall_area", 104 / 5, "m2", 1, 1⟩ := by
    unfold compute_drywall_area_in_sector_m2
    rw [if_neg (by norm_num : ¬((26 : ℚ) / 10 ≤ 0))]
    rw [hwall]
    show (Except.ok ⟨"sector_drywall_area",
        round4 ((8 : ℝ) * (((26 : ℚ) / 10 : ℚ) : ℝ)), "m2", 1, 1⟩
      : Except String MeasurementResult) = _
    have hv : (8 : ℝ) * (((26 : ℚ) / 10 : ℚ) : ℝ) * 10000 = ((208000 : ℤ) : ℝ) := by
      push_cast
      norm_num
    rw [round4_eq _ 208000 hv,
      show (((208000 : ℤ) : ℝ)) / 10000 = 104 / 5 by norm_num]
  refine ⟨hgen, ?_, ?_, ⟨_, hwall, rfl⟩, ⟨_, hdry, rfl⟩⟩
  · intro w rest s rb hne
    unfold totalWallLengthPx
    rw [List.filter_cons]
    simp [hne]
  · intro w rest s rb heq hin
    unfold totalWallLengthPx
    rw [List.filter_cons]
    simp [heq, hin]

/-- Witness for C1 at the square-sector scenario with scale 10 px/m. -/
theorem c1_wall_length_in_sector_witness :
    scale10.pixels_per_meter = some 10 ∧ (0 : ℚ) < 10
      ∧ ∃ r, compute_wall_length_in_sector_m [midWall] squareSector scale10 true
          = .ok r
        ∧ r.value = round4 (totalWallLengthPx [midWall] squareSector true
            / ((10 : ℚ) : ℝ)) :=
  ⟨rfl, by norm_num,
    c1_wall_length_in_sector.1 [midWall] squareSector scale10 true 10 rfl
      (by norm_num)⟩

/-! ## Detection deduplication (cv_pipeline.py) -/

/-- `BoundingBox` from `cv_pipeline.py`. -/
structure BoundingBox where
  x : ℚ
  y : ℚ
  width : ℚ
  height : ℚ

/-- `BoundingBox.area = width * height`. -/
def BoundingBox.area (b : BoundingBox) : ℚ := b.width * b.height

/-- `DetectedObject` (object type, page, label, attributes omitted: no
claim reads them). -/
structure DetectedObject where
  object_id : String
  bbox : BoundingBox
  confidence : ℚ

/-- `_compute_iou(box1, box2)`: intersection over union of two boxes,
0 for empty intersection or non-positive union. -/
def compute_iou (box1 box2 : BoundingBox) : ℚ :=
  let x1 := max box1.x box2.x
  let y1 := max box1.y box2.y
  let x2 := min (box1.x + box1.width) (box2.x + box2.width)
  let y2 := min (box1.y + box1.height) (box2.y + box2.height)
  if x2 ≤ x1 ∨ y2 ≤ y1 then 0
  else
    let intersection := (x2 - x1) * (y2 - y1)
    let union := box1.area + box2.area - intersection
    if union > 0 then intersection / union else 0

/-- One insertion step of a stable descending sort by confidence,
modelling Python's stable `sorted(objects, key=confidence,
reverse=True)`: an element scans past strictly higher confidences only,
so original order is kept among equal keys. -/
def insertByConfDesc (o : DetectedObject) :
    List DetectedObject → List DetectedObject
  | [] => [o]
  | p :: rest =>
    if p.confidence > o.confidence then p :: insertByConfDesc o rest
    else o :: p :: rest

/-- Stable sort by confidence descending. -/
def sortByConfDesc : List DetectedObject → List DetectedObject
  | [] => []
  | o :: rest => insertByConfDesc o (sortByConfDesc rest)

/-- The greedy suppression loop of `_merge_overlapping_detections` over
the already-sorted candidate list: keep the head, suppress every later
candidate whose IoU with it exceeds the threshold, recurse. -/
def nmsKeep (iou_threshold : ℚ) : List DetectedObject → List DetectedObject
  | [] => []
  | o :: rest =>
    o :: nmsKeep iou_threshold
      (rest.filter fun p => !decide (compute_iou o.bbox p.bbox > iou_threshold))
termination_by l => l.length
decreasing_by
  simp only [List.length_cons]
  exact Nat.lt_succ_of_le (List.length_filter_le _ _)

/-- `_merge_overlapping_detections(objects, iou_threshold=0.5)`. -/
def merge_overlapping_detections (objects : List DetectedObject)
    (iou_threshold : ℚ) : List DetectedObject :=
  if objects.length ≤ 1 then objects
  else nmsKeep iou_threshold (sortByConfDesc objects)

/-- Claim C4: for two candidates with IoU above the threshold only the
higher-confidence one survives `_merge_overlapping_detections`,
whichever order they arrive in; with IoU not above the threshold both
survive, emitted in descending confidence order. -/
theorem c4_merge_overlapping_detections (a b : DetectedObject) (t : ℚ)
    (hconf : b.confidence < a.confidence) :
    (compute_iou a.bbox b.bbox > t →
      merge_overlapping_detections [a, b] t = [a]
        ∧ merge_overlapping_detections [b, a] t = [a])
    ∧ (¬compute_iou a.bbox b.bbox > t →
      merge_overlapping_detections [a, b] t = [a, b]
        ∧ merge_overlapping_detections [b, a] t = [a, b]) := by
  have hsort1 : sortByConfDesc [a, b] = [a, b] := by
    simp only [sortByConfDesc, insertByConfDesc,
      if_neg (lt_asymm hconf : ¬b.confidence > a.confidence)]
  have hsort2 : sortByConfDesc [b, a] = [a, b] := by
    simp only [sortByConfDesc, insertByConfDesc, if_pos hconf]
  have hlen1 : ¬([a, b] : List DetectedObject).length ≤ 1 := by simp
  have hlen2 : ¬([b, a] : List DetectedObject).length ≤ 1 := by simp
  constructor
  · intro hiou
    have hkeep : nmsKeep t [a, b] = [a] := by
      rw [nmsKeep, List.filter_cons,
        if_neg (by simp [hiou]), List.filter_nil, nmsKeep]
    constructor
    · rw [merge_overlapping_detections, if_neg hlen1, hsort1, hkeep]
    · rw [merge_overlapping_detections, if_neg hlen2, hsort2, hkeep]
  · intro hiou
    have hkeep : nmsKeep t [a, b] = [a, b] := by
      rw [nmsKeep, List.filter_cons, if_pos (by simp [hiou]), List.filter_nil,
        nmsKeep, List.filter_nil, nmsKeep]
    constructor
    · rw [merge_overlapping_detections, if_neg hlen1, hsort1, hkeep]
    · rw [merge_overlapping_detections, if_neg hlen2, hsort2, hkeep]

/-- Witness for C4: two unit boxes, identical (IoU 1 > 0.5) and then
disjoint (IoU 0 ≤ 0.5), at confidences 0.9 and 0.8. -/
theorem c4_merge_overlapping_detections_witness :
    (merge_overlapping_detections
        [⟨"hi", ⟨0, 0, 1, 1⟩, 9 / 10⟩, ⟨"lo", ⟨0, 0, 1, 1⟩, 8 / 10⟩] (1 / 2)
      = [⟨"hi", ⟨0, 0, 1, 1⟩, 9 / 10⟩])
    ∧ (merge_overlapping_detections
        [⟨"hi", ⟨0, 0, 1, 1⟩, 9 / 10⟩, ⟨"lo", ⟨5, 5, 1, 1⟩, 8 / 10⟩] (1 / 2)
      = [⟨"hi", ⟨0, 0, 1, 1⟩, 9 / 10⟩, ⟨"lo", ⟨5, 5, 1, 1⟩, 8 / 10⟩]) :=
  ⟨((c4_merge_overlapping_detections ⟨"hi", ⟨0, 0, 1, 1⟩, 9 / 10⟩
      ⟨"lo", ⟨0, 0, 1, 1⟩, 8 / 10⟩ (1 / 2) (by norm_num)).1
    (by norm_num [compute_iou, BoundingBox.area])).1,
  ((c4_merge_overlapping_detections ⟨"hi", ⟨0, 0, 1, 1⟩, 9 / 10⟩
      ⟨"lo", ⟨5, 5, 1, 1⟩, 8 / 10⟩ (1 / 2) (by norm_num)).2
    (by norm_num [compute_iou, BoundingBox.area])).1⟩

/-! ## Wall-opening pipeline (wall_opening_detector.py) -/

/-- `WallOpening` from `wall_opening_detector.py`; the `metadata` dict
is modelled as an association list. -/
structure WallOpening where
  opening_id : String
  page_number : ℤ
  center_x : ℚ
  center_y : ℚ
  width_px : ℚ
  angle_degrees : ℚ
  wall_thickness_px : ℚ
  width_m : Option ℚ
  confidence : ℚ
  is_door : Bool
  detection_signals : List String
  metadata : List (String × String)

/-- The hatch-box membership test of `filter_openings_in_hatch`:
`hx <= center_x <= hx + hw and hy <= center_y <= hy + hh` for a region
`(hx, hy, hw, hh)`. -/
def openingInHatchBox (o : WallOpening) (b : ℚ × ℚ × ℚ × ℚ) : Bool :=
  decide (b.1 ≤ o.center_x ∧ o.center_x ≤ b.1 + b.2.2.1
    ∧ b.2.1 ≤ o.center_y ∧ o.center_y ≤ b.2.1 + b.2.2.2)

/-- `filter_openings_in_hatch(openings, hatch_regions)`: returns the
input unchanged for an empty region list, else drops every opening
whose center lies in some hatch bounding box. -/
def filter_openings_in_hatch (openings : List WallOpening)
    (hatch_regions : List (ℚ × ℚ × ℚ × ℚ)) : List WallOpening :=
  if hatch_regions.isEmpty then openings
  else openings.filter fun o => !hatch_regions.any fun b => openingInHatchBox o b

/-- Claim-side predicate: the opening's center lies strictly inside the
hatch box `(hx, hy, hw, hh)`. -/
def centerStrictlyInside (o : WallOpening) (b : ℚ × ℚ × ℚ × ℚ) : Prop :=
  b.1 < o.center_x ∧ o.center_x < b.1 + b.2.2.1
    ∧ b.2.1 < o.center_y ∧ o.center_y < b.2.1 + b.2.2.2

/-- Claim-side predicate: the opening's center lies at least 1 px
outside the hatch box `(hx, hy, hw, hh)`, on some side. -/
def centerOnePxOutside (o : WallOpening) (b : ℚ × ℚ × ℚ × ℚ) : Prop :=
  o.center_x ≤ b.1 - 1 ∨ b.1 + b.2.2.1 + 1 ≤ o.center_x
    ∨ o.center_y ≤ b.2.1 - 1 ∨ b.2.1 + b.2.2.2 + 1 ≤ o.center_y

/-- Claim C5: `filter_openings_in_hatch` removes every opening whose
center is strictly inside some hatch box, retains every opening whose
center is 1 px or more outside all boxes, leaves survivors unchanged in
their relative order (the output is a sublist of the input), and
returns the input unchanged for an empty hatch list. -/
theorem c5_filter_openings_in_hatch :
    (∀ (os : List WallOpening) (hs : List (ℚ × ℚ × ℚ × ℚ)) (o : WallOpening)
        (b : ℚ × ℚ × ℚ × ℚ), b ∈ hs → centerStrictlyInside o b →
        o ∉ filter_openings_in_hatch os hs)
    ∧ (∀ (os : List WallOpening) (hs : List (ℚ × ℚ × ℚ × ℚ)) (o : WallOpening),
        o ∈ os → (∀ b ∈ hs, centerOnePxOutside o b) →
        o ∈ filter_openings_in_hatch os hs)
    ∧ (∀ (os : List WallOpening) (hs : List (ℚ × ℚ × ℚ × ℚ)),
        List.Sublist (filter_openings_in_hatch os hs) os)
    ∧ (∀ os : List WallOpening, filter_openings_in_hatch os [] = os) := by
  refine ⟨?_, ?_, ?_, fun os => rfl⟩
  · intro os hs o b hb hstrict hmem
    have hne : hs ≠ [] := List.ne_nil_of_mem hb
    unfold filter_openings_in_hatch at hmem
    rw [if_neg (by simpa [List.isEmpty_iff] using hne)] at hmem
    rcases List.mem_filter.mp hmem with ⟨-, hpred⟩
    have hbox : openingInHatchBox o b = true := by
      rcases hstrict with ⟨h1, h2, h3, h4⟩
      simp only [openingInHatchBox, decide_eq_true_eq]
      exact ⟨le_of_lt h1, le_of_lt h2, le_of_lt h3, le_of_lt h4⟩
    have hany : (hs.any fun b => openingInHatchBox o b) = true :=
      List.any_eq_true.mpr ⟨b, hb, hbox⟩
    rw [hany] at hpred
    exact Bool.noConfusion hpred
  · intro os hs o hmem hout
    unfold filter_openings_in_hatch
    by_cases hhs : hs.isEmpty
    · rw [if_pos hhs]
      exact hmem
    · rw [if_neg hhs]
      refine List.mem_filter.mpr ⟨hmem, ?_⟩
      have hany : (hs.any fun b => openingInHatchBox o b) = false := by
        rw [List.any_eq_false]
        intro b hb
        rcases hout b hb with h | h | h | h <;>
          · simp only [openingInHatchBox, decide_eq_true_eq, not_and, not_le]
            intros
            linarith
      rw [hany]
      rfl
  · intro os hs
    unfold filter_openings_in_hatch
    by_cases hhs : hs.isEmpty
    · rw [if_pos hhs]
    · rw [if_neg hhs]
      exact List.filter_sublist os

/-- Witness for C5: an opening centered strictly inside the box
`(0, 0, 10, 10)` is removed; one centered 1 px to its right is kept. -/
theorem c5_filter_openings_in_hatch_witness :
    (⟨"o1", 1, 5, 5, 80, 0, 10, none, 1 / 2, false, [], []⟩ : WallOpening)
        ∉ filter_openings_in_hatch
          [⟨"o1", 1, 5, 5, 80, 0, 10, none, 1 / 2, false, [], []⟩]
          [(0, 0, 10, 10)]
      ∧ (⟨"o2", 1, 11, 5, 80, 0, 10, none, 1 / 2, false, [], []⟩ : WallOpening)
        ∈ filter_openings_in_hatch
          [⟨"o2", 1, 11, 5, 80, 0, 10, none, 1 / 2, false, [], []⟩]
          [(0, 0, 10, 10)] :=
  ⟨c5_filter_openings_in_hatch.1 _ _ _ (0, 0, 10, 10) (by simp)
      ⟨by norm_num, by norm_num, by norm_num, by norm_num⟩,
    c5_filter_openings_in_hatch.2.1 _ _ _ (by simp)
      (by
        intro b hb
        simp only [List.mem_singleton] at hb
        subst hb
        exact Or.inr (Or.inl (by norm_num)))⟩

/-! ## Segment angle (vector_measurement.py, LineSegment.angle_degrees) -/

/-- `math.atan2(y, x)`: the argument of the complex number `x + y·i`,
valued in `(-π, π]` with `atan2 0 0 = 0` — the mathematical function
the C library primitive computes. -/
noncomputable def atan2 (y x : ℝ) : ℝ := Complex.arg ⟨x, y⟩

/-- `LineSegment.angle_degrees`: `math.degrees(atan2(y2 - y1, x2 - x1))`
(`degrees(r) = r * 180 / π`), plus 180 when the result is negative. -/
noncomputable def LineSegment.angle_degrees (seg : LineSegment) : ℝ :=
  let angle_rad := atan2 ((seg.y2 - seg.y1 : ℚ) : ℝ) ((seg.x2 - seg.x1 : ℚ) : ℝ)
  let angle_deg := angle_rad * (180 / Real.pi)
  if angle_deg < 0 then angle_deg + 180 else angle_deg

/-- Counterexample to claim C7 as stated: the segment `(0,0)-(-1,0)`
has distinct endpoints, `atan2` returns exactly π, and the normalized
angle is exactly 180° — not strictly below 180. -/
theorem c7_angle_degrees_counterexample :
    (((0 : ℚ), (0 : ℚ)) ≠ ((-1 : ℚ), (0 : ℚ)))
      ∧ LineSegment.angle_degrees ⟨0, 0, -1, 0, 1⟩ = 180
      ∧ ¬LineSegment.angle_degrees ⟨0, 0, -1, 0, 1⟩ < 180 := by
  have hval : LineSegment.angle_degrees ⟨0, 0, -1, 0, 1⟩ = 180 := by
    unfold LineSegment.angle_degrees atan2
    have hz : (⟨(((-1 : ℚ) - 0 : ℚ) : ℝ), (((0 : ℚ) - 0 : ℚ) : ℝ)⟩ : ℂ) = -1 := by
      apply Complex.ext <;> norm_num
    show (let angle_rad := Complex.arg ⟨(((-1 : ℚ) - 0 : ℚ) : ℝ), (((0 : ℚ) - 0 : ℚ) : ℝ)⟩
      let angle_deg := angle_rad * (180 / Real.pi)
      if angle_deg < 0 then angle_deg + 180 else angle_deg) = 180
    rw [hz, Complex.arg_neg_one]
    have h180 : Real.pi * (180 / Real.pi) = 180 := by
      field_simp
    simp only [h180]
    rw [if_neg (by norm_num)]
  exact ⟨by norm_num [Prod.ext_iff], hval, by rw [hval]; exact lt_irrefl 180⟩

/-- Claim C7 amended: for every segment the derived `angle_degrees`
lies in the closed interval `[0°, 180°]`; the right endpoint is
attained (exactly by segments pointing in the −x direction), so the
half-open interval of the claim is off by the single value 180. -/
theorem c7_angle_degrees_range (seg : LineSegment)
    (_h : (seg.x1, seg.y1) ≠ (seg.x2, seg.y2)) :
    0 ≤ seg.angle_degrees ∧ seg.angle_degrees ≤ 180 := by
  unfold LineSegment.angle_degrees atan2
  obtain ⟨hlo, hhi⟩ := Complex.arg_mem_Ioc
    (⟨((seg.x2 - seg.x1 : ℚ) : ℝ), ((seg.y2 - seg.y1 : ℚ) : ℝ)⟩ : ℂ)
  have hpi : (0 : ℝ) < Real.pi := Real.pi_pos
  have hscale : (0 : ℝ) < 180 / Real.pi := by positivity
  have h180 : Real.pi * (180 / Real.pi) = 180 := by field_simp
  have hd_hi :
      Complex.arg ⟨((seg.x2 - seg.x1 : ℚ) : ℝ), ((seg.y2 - seg.y1 : ℚ) : ℝ)⟩
        * (180 / Real.pi) ≤ 180 := by
    calc Complex.arg ⟨((seg.x2 - seg.x1 : ℚ) : ℝ), ((seg.y2 - seg.y1 : ℚ) : ℝ)⟩
          * (180 / Real.pi)
        ≤ Real.pi * (180 / Real.pi) :=
          mul_le_mul_of_nonneg_right hhi (le_of_lt hscale)
      _ = 180 := h180
  have hd_lo :
      -180 < Complex.arg ⟨((seg.x2 - seg.x1 : ℚ) : ℝ), ((seg.y2 - seg.y1 : ℚ) : ℝ)⟩
        * (180 / Real.pi) := by
    have := mul_lt_mul_of_pos_right hlo hscale
    calc (-180 : ℝ) = -Real.pi * (180 / Real.pi) := by rw [neg_mul, h180]
      _ < _ := this
  dsimp only
  split_ifs with hneg
  · exact ⟨by linarith, by linarith⟩
  · exact ⟨not_lt.mp hneg, hd_hi⟩

/-- Witness for the amended C7 at the diagonal segment `(0,0)-(1,1)`. -/
theorem c7_angle_degrees_range_witness :
    0 ≤ LineSegment.angle_degrees ⟨0, 0, 1, 1, 1⟩
      ∧ LineSegment.angle_degrees ⟨0, 0, 1, 1, 1⟩ ≤ 180 :=
  c7_angle_degrees_range ⟨0, 0, 1, 1, 1⟩ (by norm_num [Prod.ext_iff])

/-! ## Door symbol extraction (vector_measurement.py)

The PDF/`fitz` walk and `_analyze_bezier_arc` are collaborator
primitives here: a page is abstracted as the list of arc infos the
Bezier analysis yields (in unscaled page coordinates) and the list of
raw line segments, which is exactly what the geometric core of
`extract_door_symbols_from_page` consumes. -/

/-- One result of `_analyze_bezier_arc`, in unscaled page coordinates. -/
structure ArcInfo where
  center : Pt
  radius : ℚ
  start_angle : ℚ
  end_angle : ℚ

/-- One raw `l` (line) drawing item, in unscaled page coordinates. -/
structure RawLine where
  x1 : ℚ
  y1 : ℚ
  x2 : ℚ
  y2 : ℚ

/-- `DoorSymbol` (door id, label, metadata omitted). -/
structure DoorSymbol where
  page_number : ℤ
  arc_center : Pt
  arc_radius_px : ℚ
  arc_start_angle : ℚ
  arc_end_angle : ℚ
  leaf_line : Option LineSegment
  width_m : Option ℚ
  confidence : ℚ

/-- The radius thresholds of `extract_door_symbols_from_page`:
`min_door_width_m * pixels_per_meter` to `max_door_width_m *
pixels_per_meter` when a truthy scale is given (Python's `if
pixels_per_meter:` is false for `None` and for `0.0`), else the pixel
fallback `(20, 200)`. -/
def doorRadiusThresholds (min_door_width_m max_door_width_m : ℚ)
    (pixels_per_meter : Option ℚ) : ℚ × ℚ :=
  match pixels_per_meter with
  | some p =>
    if p = 0 then (20, 200)
    else (min_door_width_m * p, max_door_width_m * p)
  | none => (20, 200)

/-- Arc collection: scale the analysed arcs by `dpi / 72` and keep those
with radius inside the door-size window. -/
def collectArcs (raw_arcs : List ArcInfo) (scale minR maxR : ℚ) :
    List ArcInfo :=
  (raw_arcs.map fun a =>
    { a with
      center := (a.center.1 * scale, a.center.2 * scale)
      radius := a.radius * scale }).filter
    fun a => decide (minR ≤ a.radius ∧ a.radius ≤ maxR)

/-- Line collection: scale the raw lines and keep those whose Euclidean
length lies inside the same window (candidate door leaves). -/
noncomputable def collectLines (raw_lines : List RawLine) (page_number : ℤ)
    (scale minR maxR : ℚ) : List LineSegment :=
  (raw_lines.map fun l =>
    ({ x1 := l.x1 * scale, y1 := l.y1 * scale, x2 := l.x2 * scale,
       y2 := l.y2 * scale, page_number := page_number } : LineSegment)).filter
    fun l => decide ((minR : ℝ) ≤ l.length_px ∧ l.length_px ≤ (maxR : ℝ))

/-- The matching tolerances `(max_center_dist_ratio,
max_length_diff_ratio, base_confidence)`: `(0.25, 0.20, 0.70)` on roof
plans, `(0.6, 0.3, 0.85)` otherwise. -/
def matchParams (is_roof_plan : Bool) : ℚ × ℚ × ℚ :=
  if is_roof_plan then (25 / 100, 20 / 100, 70 / 100)
  else (6 / 10, 3 / 10, 85 / 100)

/-- `min(dist(p1, center), dist(p2, center))` of the inner matching
loop. -/
noncomputable def endpointDistMin (l : LineSegment) (center : Pt) : ℝ :=
  min (Real.sqrt (((l.x1 - center.1 : ℚ) : ℝ) ^ 2 + ((l.y1 - center.2 : ℚ) : ℝ) ^ 2))
    (Real.sqrt (((l.x2 - center.1 : ℚ) : ℝ) ^ 2 + ((l.y2 - center.2 : ℚ) : ℝ) ^ 2))

/-- The inner loop of arc/line matching: scan the indexed candidate
lines, skip used ones, and keep the qualifying line with the strictly
smallest score `min_dist + length_diff * radius` (first wins ties,
matching `score < best_score` with `best_score` starting at infinity).
Returns the winning index, line and score. -/
noncomputable def findBestLine (center : Pt) (radius : ℚ) (cdr ldr : ℚ)
    (lines : List (ℕ × LineSegment)) (used : List ℕ) :
    Option (ℕ × LineSegment × ℝ) :=
  lines.foldl
    (fun best jl =>
      if jl.1 ∈ used then best
      else
        let min_dist := endpointDistMin jl.2 center
        let length_diff := |jl.2.length_px - (radius : ℝ)| / (radius : ℝ)
        if min_dist < (radius : ℝ) * (cdr : ℝ) ∧ length_diff < (ldr : ℝ) then
          let score := min_dist + length_diff * (radius : ℝ)
          match best with
          | none => some (jl.1, jl.2, score)
          | some b => if score < b.2.2 then some (jl.1, jl.2, score) else best
        else best)
    none

/-- The outer matching loop: walk the arcs in order, match each to its
best unused line, and emit a door exactly when a leaf line is found
(marking the line used).  The `used_arcs` set of the source is dead
bookkeeping — each arc index is visited once — and is dropped. -/
noncomputable def matchArcsToDoors (pn : ℤ) (cdr ldr bc : ℚ)
    (lines : List (ℕ × LineSegment)) :
    List ArcInfo → List ℕ → List DoorSymbol
  | [], _ => []
  | arc :: rest, used =>
    match findBestLine arc.center arc.radius cdr ldr lines used with
    | some jls =>
      { page_number := pn
        arc_center := arc.center
        arc_radius_px := arc.radius
        arc_start_angle := arc.start_angle
        arc_end_angle := arc.end_angle
        leaf_line := some jls.2.1
        width_m := none
        confidence := bc } ::
        matchArcsToDoors pn cdr ldr bc lines rest (jls.1 :: used)
    | none => matchArcsToDoors pn cdr ldr bc lines rest used

/-- Geometric core of `extract_door_symbols_from_page`, after the PDF
walk has produced the raw arcs and lines. -/
noncomputable def extract_door_symbols_core (raw_arcs : List ArcInfo)
    (raw_lines : List RawLine) (page_number : ℤ) (scale : ℚ)
    (min_door_width_m max_door_width_m : ℚ) (pixels_per_meter : Option ℚ)
    (is_roof_plan : Bool) : List DoorSymbol :=
  matchArcsToDoors page_number (matchParams is_roof_plan).1
    (matchParams is_roof_plan).2.1 (matchParams is_roof_plan).2.2
    (collectLines raw_lines page_number scale
      (doorRadiusThresholds min_door_width_m max_door_width_m pixels_per_meter).1
      (doorRadiusThresholds min_door_width_m max_door_width_m pixels_per_meter).2).enum
    (collectArcs raw_arcs scale
      (doorRadiusThresholds min_door_width_m max_door_width_m pixels_per_meter).1
      (doorRadiusThresholds min_door_width_m max_door_width_m pixels_per_meter).2)
    []

/-- Default `min_door_width_m = 0.5` of `extract_door_symbols_from_page`. -/
def extract_min_door_width_default : ℚ := 5 / 10

/-- Default `max_door_width_m = 2.5` of `extract_door_symbols_from_page`. -/
def extract_max_door_width_default : ℚ := 25 / 10

/-- Default `min_door_width_m = 0.62` of `measure_doors_on_page`. -/
def measure_min_door_width_default : ℚ := 62 / 100

/-- Default `max_door_width_m = 2.0` of `measure_doors_on_page`. -/
def measure_max_door_width_default : ℚ := 2

/-- Geometric core of `measure_doors_on_page` at its default width
bounds: extract with the defaults `0.62`–`2.0`, then set each door's
`width_m = arc_radius_px / pixels_per_meter`.  `scale = dpi / 72`. -/
noncomputable def measure_doors_on_page (raw_arcs : List ArcInfo)
    (raw_lines : List RawLine) (page_number : ℤ) (pixels_per_meter : ℚ)
    (dpi : ℤ) (is_roof_plan : Bool) : List DoorSymbol :=
  (extract_door_symbols_core raw_arcs raw_lines page_number ((dpi : ℚ) / 72)
      measure_min_door_width_default measure_max_door_width_default
      (some pixels_per_meter) is_roof_plan).map
    fun door => { door with width_m := some (door.arc_radius_px / pixels_per_meter) }

/-- Every door the matching loop emits carries the radius of one of the
candidate arcs. -/
lemma matchArcsToDoors_radius_mem (pn : ℤ) (cdr ldr bc : ℚ)
    (lines : List (ℕ × LineSegment)) :
    ∀ (arcs : List ArcInfo) (used : List ℕ) (d : DoorSymbol),
      d ∈ matchArcsToDoors pn cdr ldr bc lines arcs used →
      ∃ a ∈ arcs, d.arc_radius_px = a.radius := by
  intro arcs
  induction arcs with
  | nil =>
    intro used d h
    rw [matchArcsToDoors] at h
    exact absurd h (List.not_mem_nil d)
  | cons arc rest ih =>
    intro used d h
    rw [matchArcsToDoors] at h
    rcases hfind : findBestLine arc.center arc.radius cdr ldr lines used with
      _ | jls
    · rw [hfind] at h
      obtain ⟨a, ha, hr⟩ := ih used d h
      exact ⟨a, List.mem_cons_of_mem _ ha, hr⟩
    · rw [hfind] at h
      dsimp only at h
      rcases List.mem_cons.mp h with hd | hd
      · subst hd
        exact ⟨arc, List.mem_cons_self _ _, rfl⟩
      · obtain ⟨a, ha, hr⟩ := ih _ d hd
        exact ⟨a, List.mem_cons_of_mem _ ha, hr⟩

/-- Claim C6 amended: every door returned by `measure_doors_on_page`
has `width_m = arc_radius_px / pixels_per_meter`, and that width lies
within the configured plausible range, whose production defaults are
0.62–2.0 m (not 0.6 as claimed); raw extraction defaults stay 0.5–2.5. -/
theorem c6_measure_doors_width_range :
    extract_min_door_width_default = 5 / 10
      ∧ extract_max_door_width_default = 25 / 10
      ∧ ∀ (raw_arcs : List ArcInfo) (raw_lines : List RawLine) (pn : ℤ)
          (ppm : ℚ) (dpi : ℤ) (roof : Bool), 0 < ppm →
          ∀ d ∈ measure_doors_on_page raw_arcs raw_lines pn ppm dpi roof,
            d.width_m = some (d.arc_radius_px / ppm)
              ∧ 62 / 100 ≤ d.arc_radius_px / ppm
              ∧ d.arc_radius_px / ppm ≤ 2 := by
  refine ⟨rfl, rfl, ?_⟩
  intro raw_arcs raw_lines pn ppm dpi roof hppm d hd
  unfold measure_doors_on_page at hd
  obtain ⟨d0, hd0, hmap⟩ := List.mem_map.mp hd
  subst hmap
  refine ⟨rfl, ?_, ?_⟩ <;>
  · unfold extract_door_symbols_core at hd0
    obtain ⟨a, ha, hr⟩ := matchArcsToDoors_radius_mem _ _ _ _ _ _ _ _ hd0
    have hth : doorRadiusThresholds measure_min_door_width_default
        measure_max_door_width_default (some ppm) = (62 / 100 * ppm, 2 * ppm) := by
      unfold doorRadiusThresholds measure_min_door_width_default
        measure_max_door_width_default
      dsimp only
      rw [if_neg (ne_of_gt hppm)]
    rw [hth] at ha
    obtain ⟨-, hbool⟩ := List.mem_filter.mp ha
    rw [decide_eq_true_eq] at hbool
    obtain ⟨hblo, hbhi⟩ := hbool
    dsimp only at hblo hbhi
    simp only [hr]
    first
    | · rw [le_div_iff₀ hppm]
        exact hblo
    | · rw [div_le_iff₀ hppm]
        exact hbhi

/-- Counterexample to claim C6 as stated: the production default
minimum of `measure_doors_on_page` is 0.62 m, not 0.6 m — an arc of
radius 61 px at 100 px/m (width 0.61 m, inside the claimed 0.6–2.0 m
range) is rejected by the default thresholds and no door is returned. -/
theorem c6_measure_doors_defaults_counterexample :
    measure_min_door_width_default ≠ 6 / 10
      ∧ measure_doors_on_page [⟨(0, 0), 61, 0, 90⟩] [] 1 100 72 false = []
      ∧ (6 / 10 : ℚ) ≤ 61 / 100 ∧ (61 / 100 : ℚ) ≤ 2 := by
  refine ⟨by norm_num [measure_min_door_width_default], ?_, by norm_num,
    by norm_num⟩
  unfold measure_doors_on_page extract_door_symbols_core
  have h1 : (doorRadiusThresholds measure_min_door_width_default
      measure_max_door_width_default (some (100 : ℚ))).1 = 62 := by
    norm_num [doorRadiusThresholds, measure_min_door_width_default]
  have h2 : (doorRadiusThresholds measure_min_door_width_default
      measure_max_door_width_default (some (100 : ℚ))).2 = 200 := by
    norm_num [doorRadiusThresholds, measure_max_door_width_default]
  rw [h1, h2]
  have harcs : collectArcs [⟨(0, 0), 61, 0, 90⟩] (((72 : ℤ) : ℚ) / 72) 62 200
      = [] := by
    norm_num [collectArcs, List.filter_cons]
  rw [harcs, matchArcsToDoors, List.map_nil]

/-- Witness for the amended C6: at 100 px/m and dpi 72 the quarter-arc
of radius 100 px with leaf line `(0,0)-(100,0)` yields exactly one door
of width 1.0 m, inside the default 0.62–2.0 m range. -/
theorem c6_measure_doors_width_range_witness :
    (⟨1, (0, 0), 100, 0, 90, some ⟨0, 0, 100, 0, 1⟩, some (100 / 100),
        85 / 100⟩ : DoorSymbol).width_m
      = some ((⟨1, (0, 0), 100, 0, 90, some ⟨0, 0, 100, 0, 1⟩, some (100 / 100),
          85 / 100⟩ : DoorSymbol).arc_radius_px / 100)
    ∧ 62 / 100 ≤ (⟨1, (0, 0), 100, 0, 90, some ⟨0, 0, 100, 0, 1⟩,
        some (100 / 100), 85 / 100⟩ : DoorSymbol).arc_radius_px / 100
    ∧ (⟨1, (0, 0), 100, 0, 90, some ⟨0, 0, 100, 0, 1⟩, some (100 / 100),
        85 / 100⟩ : DoorSymbol).arc_radius_px / 100 ≤ 2 := by
  have hlen100 : (⟨0, 0, 100, 0, 1⟩ : LineSegment).length_px = 100 := by
    unfold LineSegment.length_px
    norm_num
    rw [show (10000 : ℝ) = 100 ^ 2 by norm_num]
    exact Real.sqrt_sq (by norm_num)
  have hth1 : (doorRadiusThresholds measure_min_door_width_default
      measure_max_door_width_default (some (100 : ℚ))).1 = 62 := by
    norm_num [doorRadiusThresholds, measure_min_door_width_default]
  have hth2 : (doorRadiusThresholds measure_min_door_width_default
      measure_max_door_width_default (some (100 : ℚ))).2 = 200 := by
    norm_num [doorRadiusThresholds, measure_max_door_width_default]
  have harcs : collectArcs [⟨(0, 0), 100, 0, 90⟩] (((72 : ℤ) : ℚ) / 72) 62 200
      = [⟨(0, 0), 100, 0, 90⟩] := by
    norm_num [collectArcs, List.filter_cons, ArcInfo.mk.injEq, Prod.ext_iff]
  have hlines : collectLines [⟨0, 0, 100, 0⟩] 1 (((72 : ℤ) : ℚ) / 72) 62 200
      = [⟨0, 0, 100, 0, 1⟩] := by
    unfold collectLines
    rw [List.map_cons, List.map_nil]
    dsimp only
    have hrec : LineSegment.mk (0 * (((72 : ℤ) : ℚ) / 72))
        (0 * (((72 : ℤ) : ℚ) / 72)) (100 * (((72 : ℤ) : ℚ) / 72))
        (0 * (((72 : ℤ) : ℚ) / 72)) 1 = ⟨0, 0, 100, 0, 1⟩ := by
      norm_num [LineSegment.mk.injEq]
    rw [hrec, List.filter_cons]
    have hcond : (decide (((62 : ℚ) : ℝ) ≤ (⟨0, 0, 100, 0, 1⟩ : LineSegment).length_px
        ∧ (⟨0, 0, 100, 0, 1⟩ : LineSegment).length_px ≤ ((200 : ℚ) : ℝ))) = true :=
      decide_eq_true ⟨by rw [hlen100]; norm_num, by rw [hlen100]; norm_num⟩
    rw [hcond, if_pos rfl, List.filter_nil]
  have hmd : endpointDistMin ⟨0, 0, 100, 0, 1⟩ ((0 : ℚ), (0 : ℚ)) = 0 := by
    unfold endpointDistMin
    norm_num
  have hld : |(⟨0, 0, 100, 0, 1⟩ : LineSegment).length_px - ((100 : ℚ) : ℝ)|
      / ((100 : ℚ) : ℝ) = 0 := by
    rw [hlen100]
    norm_num
  have hfind : findBestLine ((0 : ℚ), (0 : ℚ)) 100 (6 / 10) (3 / 10)
      [(0, ⟨0, 0, 100, 0, 1⟩)] [] = some (0, ⟨0, 0, 100, 0, 1⟩, 0) := by
    unfold findBestLine
    rw [List.foldl_cons, List.foldl_nil]
    rw [if_neg (List.not_mem_nil _)]
    dsimp only
    rw [hmd, hld]
    rw [if_pos (by constructor <;> norm_num)]
    norm_num
  have hmatch : matchArcsToDoors 1 (6 / 10) (3 / 10) (85 / 100)
      [(0, ⟨0, 0, 100, 0, 1⟩)] [⟨(0, 0), 100, 0, 90⟩] []
      = [⟨1, (0, 0), 100, 0, 90, some ⟨0, 0, 100, 0, 1⟩, none, 85 / 100⟩] := by
    rw [matchArcsToDoors, hfind]
    dsimp only
    rw [matchArcsToDoors]
  have hrun : measure_doors_on_page [⟨(0, 0), 100, 0, 90⟩] [⟨0, 0, 100, 0⟩]
      1 100 72 false
      = [⟨1, (0, 0), 100, 0, 90, some ⟨0, 0, 100, 0, 1⟩, some (100 / 100),
          85 / 100⟩] := by
    unfold measure_doors_on_page extract_door_symbols_core
    rw [hth1, hth2, harcs, hlines]
    rw [show ([⟨0, 0, 100, 0, 1⟩] : List LineSegment).enum
      = [(0, ⟨0, 0, 100, 0, 1⟩)] from rfl]
    rw [show matchParams false = (6 / 10, 3 / 10, 85 / 100) from rfl]
    dsimp only
    rw [hmatch, List.map_cons, List.map_nil]
  exact c6_measure_doors_width_range.2.2 [⟨(0, 0), 100, 0, 90⟩]
    [⟨0, 0, 100, 0⟩] 1 100 72 false (by norm_num) _
    (by rw [hrun]; exact List.mem_singleton.mpr rfl)

/-! ## Door validation, deduplication and the detection pipeline
(wall_opening_detector.py) -/

/-- The DIN 18101 default `standard_widths` table of
`validate_door_openings`. -/
def standard_widths_default : List ℚ :=
  [625 / 1000, 755 / 1000, 885 / 1000, 101 / 100, 1135 / 1000, 126 / 100,
    1385 / 1000, 151 / 100, 176 / 100, 201 / 100]

/-- `min(abs(width_m - std) for std in standard_widths)`; the table is
never empty on any call path, the `[]` branch is dead. -/
def minDeviation (w : ℚ) (stds : List ℚ) : ℚ :=
  match stds.map fun std => |w - std| with
  | [] => 0
  | x :: xs => xs.foldl min x

/-- One iteration of the `validate_door_openings` loop: compute and
store `width_m`, accept the opening iff the width is inside the valid
range, grading confidence by proximity to a standard width and tagging
a door-type category. -/
def validate_one (ppm min_w max_w : ℚ) (stds : List ℚ) (o : WallOpening) :
    Option WallOpening :=
  let width_m := o.width_px / ppm
  let o1 : WallOpening := { o with width_m := some width_m }
  if min_w ≤ width_m ∧ width_m ≤ max_w then
    let min_deviation := minDeviation width_m stds
    let o2 : WallOpening :=
      if min_deviation < 5 / 100 then
        { o1 with
          confidence := 9 / 10
          detection_signals := o1.detection_signals ++ ["standard_width"] }
      else if min_deviation < 10 / 100 then
        { o1 with
          confidence := 75 / 100
          detection_signals := o1.detection_signals ++ ["near_standard_width"] }
      else
        { o1 with
          confidence := 6 / 10
          detection_signals := o1.detection_signals ++ ["non_standard_width"] }
    let door_type :=
      if width_m < 7 / 10 then "narrow"
      else if width_m < 95 / 100 then "standard"
      else if width_m < 13 / 10 then "wide"
      else "double"
    some { o2 with
      is_door := true
      metadata := o2.metadata ++ [("door_type", door_type)] }
  else none

/-- `validate_door_openings(openings, pixels_per_meter, ...)`: keep, in
order, the openings `validate_one` accepts. -/
def validate_door_openings (openings : List WallOpening) (ppm : ℚ)
    (min_w max_w : ℚ) (stds : List ℚ) : List WallOpening :=
  openings.filterMap (validate_one ppm min_w max_w stds)

/-- Center distance between two openings. -/
noncomputable def openingDist (a b : WallOpening) : ℝ :=
  Real.sqrt (((a.center_x - b.center_x : ℚ) : ℝ) ^ 2
    + ((a.center_y - b.center_y : ℚ) : ℝ) ^ 2)

/-- Stable descending insertion by confidence for openings, modelling
`sorted(openings, key=confidence, reverse=True)`. -/
def insertOpeningByConfDesc (o : WallOpening) :
    List WallOpening → List WallOpening
  | [] => [o]
  | p :: rest =>
    if p.confidence > o.confidence then p :: insertOpeningByConfDesc o rest
    else o :: p :: rest

/-- Stable sort by confidence descending for openings. -/
def sortOpeningsByConfDesc : List WallOpening → List WallOpening
  | [] => []
  | o :: rest => insertOpeningByConfDesc o (sortOpeningsByConfDesc rest)

/-- The greedy loop of `deduplicate_openings`: skip ids already kept,
drop an opening whose center is within the distance threshold of an
already-kept one, keep the rest in scan order. -/
noncomputable def dedupGo (threshold : ℚ) :
    List WallOpening → List WallOpening → List String → List WallOpening
  | [], kept, _used => kept
  | o :: rest, kept, used =>
    if o.opening_id ∈ used then dedupGo threshold rest kept used
    else if kept.any fun k => decide (openingDist o k < (threshold : ℝ)) then
      dedupGo threshold rest kept used
    else dedupGo threshold rest (kept ++ [o]) (used ++ [o.opening_id])

/-- `deduplicate_openings(openings, distance_threshold_px=50)`. -/
noncomputable def deduplicate_openings (openings : List WallOpening)
    (threshold : ℚ) : List WallOpening :=
  if openings.length ≤ 1 then openings
  else dedupGo threshold (sortOpeningsByConfDesc openings) [] []

/-- `DoorDetectionResult` (processing time and debug images omitted). -/
structure DoorDetectionResult where
  page_number : ℤ
  doors : List WallOpening
  total_openings_analyzed : ℕ
  wall_mask_generated : Bool
  hatch_regions_filtered : ℕ
  warnings : List String

/-- Outcomes of the collaborator steps of
`detect_doors_from_wall_openings` on one invocation: module
availability flags, the rendering attempt, whether `cv2.imread` can
load the rendered file inside `extract_wall_mask`, the mask's wall
pixel count (`np.sum(wall_mask)`), and the outputs of
`find_wall_openings` and `detect_hatch_regions` on that mask/image. -/
structure WallDetectEnv where
  cv2_available : Bool
  fitz_available : Bool
  render_result : Except String String
  image_loads : Bool
  mask_wall_pixels : ℕ
  openings_found : List WallOpening
  hatch_regions : List (ℚ × ℚ × ℚ × ℚ)

/-- `detect_doors_from_wall_openings` from `wall_opening_detector.py`,
as a function of the collaborator outcomes.  Missing OpenCV/PyMuPDF and
a rendering exception are caught and turned into empty warned results;
the steps after rendering sit in a `try/finally` with **no except
clause**, so the `ValueError` `extract_wall_mask` raises when the
rendered image cannot be loaded propagates to the caller (`.error`). -/
noncomputable def detect_doors_from_wall_openings (env : WallDetectEnv)
    (page_number : ℤ) (scale dpi : ℚ)
    (min_door_width_m max_door_width_m : ℚ) :
    Except String DoorDetectionResult :=
  if !env.cv2_available then
    .ok ⟨page_number, [], 0, false, 0, ["OpenCV not available"]⟩
  else if !env.fitz_available then
    .ok ⟨page_number, [], 0, false, 0, ["PyMuPDF not available"]⟩
  else
    let pixels_per_meter := (1 / scale) * (1 / (254 / 10000)) * dpi
    match env.render_result with
    | .error e =>
      .ok ⟨page_number, [], 0, false, 0, ["Failed to render PDF: " ++ e]⟩
    | .ok image_path =>
      if !env.image_loads then .error ("Failed to load image: " ++ image_path)
      else if env.mask_wall_pixels = 0 then
        .ok ⟨page_number, [], 0, false, 0, ["No walls detected in image"]⟩
      else
        let openings := env.openings_found
        let openings1 :=
          if !env.hatch_regions.isEmpty then
            filter_openings_in_hatch openings env.hatch_regions
          else openings
        let doors := validate_door_openings openings1 pixels_per_meter
          min_door_width_m max_door_width_m standard_widths_default
        let doors1 := deduplicate_openings doors 50
        .ok ⟨page_number, doors1, openings.length, true,
          env.hatch_regions.length, []⟩

/-- Counterexample to claim C8 as stated: with OpenCV and PyMuPDF
available and the page rendered, an image that fails to load inside
`extract_wall_mask` makes `detect_doors_from_wall_openings` propagate
the `ValueError` (the surrounding try/finally has no except clause),
instead of returning an empty warned result. -/
theorem c8_detect_doors_counterexample :
    detect_doors_from_wall_openings ⟨true, true, .ok "page.png", false, 0, [], []⟩
      1 100 400 (6 / 10) (22 / 10)
      = .error ("Failed to load image: " ++ "page.png") := by
  unfold detect_doors_from_wall_openings
  rfl

/-- Claim C8 amended: `detect_doors_from_wall_openings` returns an
empty result with a human-readable warning when OpenCV is missing,
PyMuPDF is missing, rendering raises, or the wall mask is empty — but
an exception raised inside wall-mask extraction itself (the rendered
image fails to load) propagates to the caller. -/
theorem c8_detect_doors_failure_semantics (env : WallDetectEnv) (pn : ℤ)
    (scale dpi minw maxw : ℚ) :
    (env.cv2_available = false →
      detect_doors_from_wall_openings env pn scale dpi minw maxw
        = .ok ⟨pn, [], 0, false, 0, ["OpenCV not available"]⟩)
    ∧ (env.cv2_available = true → env.fitz_available = false →
      detect_doors_from_wall_openings env pn scale dpi minw maxw
        = .ok ⟨pn, [], 0, false, 0, ["PyMuPDF not available"]⟩)
    ∧ (∀ e, env.cv2_available = true → env.fitz_available = true →
      env.render_result = .error e →
      detect_doors_from_wall_openings env pn scale dpi minw maxw
        = .ok ⟨pn, [], 0, false, 0, ["Failed to render PDF: " ++ e]⟩)
    ∧ (∀ p, env.cv2_available = true → env.fitz_available = true →
      env.render_result = .ok p → env.image_loads = true →
      env.mask_wall_pixels = 0 →
      detect_doors_from_wall_openings env pn scale dpi minw maxw
        = .ok ⟨pn, [], 0, false, 0, ["No walls detected in image"]⟩)
    ∧ (∀ p, env.cv2_available = true → env.fitz_available = true →
      env.render_result = .ok p → env.image_loads = false →
      detect_doors_from_wall_openings env pn scale dpi minw maxw
        = .error ("Failed to load image: " ++ p)) := by
  refine ⟨?_, ?_, ?_, ?_, ?_⟩
  · intro h
    unfold detect_doors_from_wall_openings
    rw [h]
    rfl
  · intro h1 h2
    unfold detect_doors_from_wall_openings
    rw [h1, h2]
    rfl
  · intro e h1 h2 h3
    unfold detect_doors_from_wall_openings
    rw [h1, h2, h3]
    rfl
  · intro p h1 h2 h3 h4 h5
    unfold detect_doors_from_wall_openings
    rw [h1, h2, h3, h4, h5]
    rfl
  · intro p h1 h2 h3 h4
    unfold detect_doors_from_wall_openings
    rw [h1, h2, h3, h4]
    rfl

/-- Witness for the amended C8: a rendering failure yields the empty
warned result. -/
theorem c8_detect_doors_failure_semantics_witness :
    detect_doors_from_wall_openings
        ⟨true, true, .error "render failed", true, 0, [], []⟩
        1 100 400 (6 / 10) (22 / 10)
      = .ok ⟨1, [], 0, false, 0, ["Failed to render PDF: " ++ "render failed"]⟩ :=
  (c8_detect_doors_failure_semantics
      ⟨true, true, .error "render failed", true, 0, [], []⟩
      1 100 400 (6 / 10) (22 / 10)).2.2.1 "render failed" rfl rfl rfl

end SnapPlan
